import Mathlib

/-!
Shallow embedding of `libretro-backend` (`src/lib.rs`), the adapter layer
between a libretro frontend and a Rust emulation core.

Modelling conventions:
* Byte buffers (`Vec<u8>` / `CString` contents) are `List Char`; a `CString`
  construction (`CString::new(..).unwrap()`) panics on an interior NUL byte,
  modelled by `cstringNew : List Char → Option (List Char)`.
* `f64` values (`frames_per_second`, `audio_sample_rate`) are `ℚ`; every
  concrete value used in a theorem below (48000, 60, 59, 50, …) is exactly
  representable in `f64` and the arithmetic performed on them is exact, so
  the rational model agrees with the floating-point computation there.
* `u32` / `usize` values are `ℕ`, with an explicit `% 2 ^ 32` at the one
  place the source performs a 32-bit truncating cast or 32-bit arithmetic
  (`upload_video_frame`).
* Panics (`assert!`, `unwrap`, `unreachable!`) are `none` / `Except.error`;
  the `Except.error` payload of `on_load_game` carries the adapter state at
  the moment the panic fires.
* The user-supplied core is abstract: its response to `on_load_game` is a
  `LoadGameResult` parameter, its behaviour inside `on_run` is a list of
  upload events, and its optional memory regions are a `CoreMemory` record.
-/

namespace LibretroBackend

/-- Pixel formats re-exported from `libretro-sys` (`PixelFormat`). -/
inductive PixelFormat where
  | ARGB1555
  | ARGB8888
  | RGB565
deriving DecidableEq, Repr

/-- Regions re-exported from `libretro-sys` (`Region`). -/
inductive Region where
  | NTSC
  | PAL
deriving DecidableEq, Repr

/-- `CString::new(bytes).unwrap()`: succeeds exactly when the bytes contain
no interior NUL; on NUL the source panics (modelled as `none`). -/
def cstringNew (s : List Char) : Option (List Char) :=
  if Char.ofNat 0 ∈ s then none else some s

/-- `CoreInfo` (`src/lib.rs` lines 14–20): static core metadata. -/
structure CoreInfo where
  library_name : List Char
  library_version : List Char
  supported_romfile_extensions : List Char
  require_path_when_loading_roms : Bool
  allow_frontend_to_extract_archives : Bool
deriving DecidableEq, Repr

/-- `CoreInfo::new` (lines 23–31). -/
def CoreInfo.new (name version : List Char) : Option CoreInfo := do
  let n ← cstringNew name
  let v ← cstringNew version
  some { library_name := n
         library_version := v
         supported_romfile_extensions := []
         require_path_when_loading_roms := false
         allow_frontend_to_extract_archives := true }

/-- The arms of the archive-extension `match` in
`CoreInfo::supports_roms_with_extension` (lines 48–55). -/
def archiveExtensions : List (List Char) :=
  ["gz".data, "xz".data,
   "zip".data, "rar".data, "7z".data, "tar".data, "tgz".data, "txz".data,
   "bz2".data,
   "tar.gz".data, "tar.bz2".data, "tar.xz".data]

/-- The leading-dot strip at the top of `supports_roms_with_extension`
(lines 34–36): `if extension.starts_with(".") { extension = &extension[1..] }`. -/
def stripLeadingDot (e : List Char) : List Char :=
  match e with
  | '.' :: rest => rest
  | _ => e

/-- `CoreInfo::supports_roms_with_extension` (lines 33–59): strips one
leading dot, appends (pipe-separated) to the stored extension list, clears
the archive-extraction flag on an archive-like extension, and rebuilds the
`CString` (panicking on an interior NUL, hence `Option`). -/
def CoreInfo.supports_roms_with_extension (info : CoreInfo) (ext : List Char) :
    Option CoreInfo :=
  let e := stripLeadingDot ext
  let vec := info.supported_romfile_extensions
  let vec := if vec.isEmpty then e else vec ++ '|' :: e
  let allow :=
    if e ∈ archiveExtensions then false else info.allow_frontend_to_extract_archives
  (cstringNew vec).map (fun v =>
    { info with supported_romfile_extensions := v
                allow_frontend_to_extract_archives := allow })

/-- `CoreInfo::requires_path_when_loading_roms` (lines 61–64). -/
def CoreInfo.requires_path_when_loading_roms (info : CoreInfo) : CoreInfo :=
  { info with require_path_when_loading_roms := true }

/-- Iterated builder calls: `info.supports_roms_with_extension(e1).supports_roms_with_extension(e2)…`. -/
def CoreInfo.addExts (info : CoreInfo) : List (List Char) → Option CoreInfo
  | [] => some info
  | e :: es => (info.supports_roms_with_extension e).bind (fun i => i.addExts es)

/-- `AudioVideoInfo` (lines 67–77). -/
structure AudioVideoInfo where
  width : ℕ
  height : ℕ
  max_width : ℕ
  max_height : ℕ
  frames_per_second : ℚ
  audio_sample_rate : ℚ
  aspect_ratio : Option ℚ
  pixel_format : PixelFormat
  game_region : Option Region
deriving DecidableEq, Repr

/-- `AudioVideoInfo::new` (lines 80–92). -/
def AudioVideoInfo.new : AudioVideoInfo :=
  { width := 0
    height := 0
    max_width := 0
    max_height := 0
    frames_per_second := 0
    audio_sample_rate := 0
    aspect_ratio := none
    pixel_format := PixelFormat.RGB565
    game_region := none }

/-- `AudioVideoInfo::video` (lines 94–102). -/
def AudioVideoInfo.video (a : AudioVideoInfo) (width height : ℕ)
    (frames_per_second : ℚ) (pixel_format : PixelFormat) : AudioVideoInfo :=
  { a with width := width
           height := height
           max_width := max a.max_width width
           max_height := max a.max_height height
           frames_per_second := frames_per_second
           pixel_format := pixel_format }

/-- `AudioVideoInfo::max_video_size` (lines 104–108). -/
def AudioVideoInfo.max_video_size (a : AudioVideoInfo) (max_width max_height : ℕ) :
    AudioVideoInfo :=
  { a with max_width := max a.max_width max_width
           max_height := max a.max_height max_height }

/-- `AudioVideoInfo::aspect_ratio` setter (lines 110–113); named `set_aspect_ratio`
here because `aspect_ratio` is the field projection. -/
def AudioVideoInfo.set_aspect_ratio (a : AudioVideoInfo) (r : ℚ) : AudioVideoInfo :=
  { a with aspect_ratio := some r }

/-- `AudioVideoInfo::audio` (lines 115–118). -/
def AudioVideoInfo.audio (a : AudioVideoInfo) (sample_rate : ℚ) : AudioVideoInfo :=
  { a with audio_sample_rate := sample_rate }

/-- `AudioVideoInfo::region` (lines 120–123). -/
def AudioVideoInfo.region (a : AudioVideoInfo) (game_region : Region) : AudioVideoInfo :=
  { a with game_region := some game_region }

/-- `AudioVideoInfo::infer_game_region` (lines 125–133). -/
def AudioVideoInfo.infer_game_region (a : AudioVideoInfo) : Region :=
  a.game_region.getD (if 59 < a.frames_per_second then Region.NTSC else Region.PAL)

/-- One call of the `AudioVideoInfo` fluent builder. -/
inductive AVStep where
  | video (w h : ℕ) (fps : ℚ) (fmt : PixelFormat)
  | maxVideoSize (w h : ℕ)
  | setAspectRatio (r : ℚ)
  | audio (rate : ℚ)
  | region (r : Region)

/-- Apply one builder call. -/
def applyAVStep (a : AudioVideoInfo) : AVStep → AudioVideoInfo
  | AVStep.video w h fps fmt => a.video w h fps fmt
  | AVStep.maxVideoSize w h => a.max_video_size w h
  | AVStep.setAspectRatio r => a.set_aspect_ratio r
  | AVStep.audio rate => a.audio rate
  | AVStep.region r => a.region r

/-- Apply a whole builder chain. -/
def applyAVSteps (a : AudioVideoInfo) (l : List AVStep) : AudioVideoInfo :=
  l.foldl applyAVStep a

/-- `GameData` (lines 136–145): optional path, optional borrowed byte slice. -/
structure GameData where
  path : Option (List Char)
  data : Option (List ℕ)
deriving DecidableEq, Repr

/-- `GameData::is_empty` (lines 156–158). -/
def GameData.is_empty (g : GameData) : Bool :=
  g.path.isNone && g.data.isNone

/-- `LoadGameResult` (lines 161–164); the `GameData` carried by `Failed` is
immediately discarded by the adapter, so it is not recorded here. -/
inductive LoadGameResult where
  | Success (av : AudioVideoInfo)
  | Failed

/-- `RuntimeHandle` (lines 492–502), minus the three raw callback pointers
(the host callbacks are external effects with no adapter-visible state). -/
structure RuntimeHandle where
  upload_video_frame_already_called : Bool
  audio_samples_uploaded : ℕ
  video_width : ℕ
  video_height : ℕ
  video_frame_bytes_per_pixel : ℕ
deriving DecidableEq, Repr

/-- `RuntimeHandle::upload_video_frame` (lines 505–517), applied to the
length of the `data` slice.  The source compares
`data.len() as u32 >= video_width * video_height * video_frame_bytes_per_pixel`:
the cast truncates the `usize` length to 32 bits (`% 2 ^ 32`) and the product
is computed in wrapping 32-bit arithmetic.  Both `assert!` failures are `none`. -/
def RuntimeHandle.upload_video_frame (h : RuntimeHandle) (dataLen : ℕ) :
    Option RuntimeHandle :=
  if h.upload_video_frame_already_called then none
  else if (h.video_width * h.video_height * h.video_frame_bytes_per_pixel) % 2 ^ 32
            ≤ dataLen % 2 ^ 32 then
    some { h with upload_video_frame_already_called := true }
  else none

/-- `RuntimeHandle::upload_audio_frame` (lines 519–526), applied to the
length of the `data : &[i16]` slice (a count of individual `i16` values).
`assert!(data.len() % 2 == 0)` is the `none` branch; otherwise
`audio_samples_uploaded += data.len()`. -/
def RuntimeHandle.upload_audio_frame (h : RuntimeHandle) (dataLen : ℕ) :
    Option RuntimeHandle :=
  if dataLen % 2 = 0 then
    some { h with audio_samples_uploaded := h.audio_samples_uploaded + dataLen }
  else none

/-- The per-run adapter state of `Retro<B>` (lines 234–246) that the claims
concern: the loaded flag, the negotiated AV configuration, and the
cross-frame audio surplus.  The five callback slots are external function
pointers with no further adapter-visible structure and are omitted. -/
structure RetroState where
  is_game_loaded : Bool
  av_info : AudioVideoInfo
  total_audio_samples_uploaded : ℕ
deriving DecidableEq, Repr

/-- `Retro::new` (lines 261–275), restricted to the modelled fields. -/
def Retro.new : RetroState :=
  { is_game_loaded := false
    av_info := AudioVideoInfo.new
    total_audio_samples_uploaded := 0 }

/-- The bytes-per-pixel match inside `Retro::on_run` (lines 417–420). -/
def bytesPerPixel : PixelFormat → ℕ
  | PixelFormat.ARGB1555 => 2
  | PixelFormat.RGB565 => 2
  | PixelFormat.ARGB8888 => 4

/-- The `RuntimeHandle` constructed at the top of `Retro::on_run`
(lines 408–421). -/
def mkRuntimeHandle (s : RetroState) : RuntimeHandle :=
  { upload_video_frame_already_called := false
    audio_samples_uploaded := 0
    video_width := s.av_info.width
    video_height := s.av_info.height
    video_frame_bytes_per_pixel := bytesPerPixel s.av_info.pixel_format }

/-- One call the core makes on the `RuntimeHandle` during `Core::on_run`
(the input-query calls do not change adapter state and are omitted). -/
inductive FrameEvent where
  | video (dataLen : ℕ)
  | audio (dataLen : ℕ)

/-- The core's upload calls during `Core::on_run`, threaded through the
handle; a panic in any upload aborts the frame. -/
def runEvents (h : RuntimeHandle) : List FrameEvent → Option RuntimeHandle
  | [] => some h
  | FrameEvent.video n :: es => (h.upload_video_frame n).bind (fun h => runEvents h es)
  | FrameEvent.audio n :: es => (h.upload_audio_frame n).bind (fun h => runEvents h es)

/-- `Retro::on_run` (lines 407–437), with the core's behaviour supplied as
the list of upload events it performs.  After the core returns, the adapter
adds the uploaded sample count to the carried total, asserts
`total as f64 >= (audio_sample_rate / frames_per_second) * 2.0` (the `none`
branch on failure), and subtracts `required as usize` (truncation toward
zero, i.e. the floor for the nonnegative rates considered here). -/
def Retro.on_run (s : RetroState) (events : List FrameEvent) : Option RetroState :=
  (runEvents (mkRuntimeHandle s) events).bind (fun h =>
    let total := s.total_audio_samples_uploaded + h.audio_samples_uploaded
    let required : ℚ := s.av_info.audio_sample_rate / s.av_info.frames_per_second * 2
    if required ≤ (total : ℚ) then
      some { s with total_audio_samples_uploaded := total - (⌊required⌋).toNat }
    else none)

/-- `Retro::on_load_game` (lines 347–401), with the core's response and the
outcome of the `ENVIRONMENT_SET_PIXEL_FORMAT` environment call supplied as
parameters.  `assert_eq!(self.is_game_loaded, false)` fires before any
mutation, so that panic carries the input state unchanged; on `Success` the
AV info is stored first, and the `unwrap` of a failed environment call then
panics before `is_game_loaded` is set. -/
def Retro.on_load_game (s : RetroState) (result : LoadGameResult) (envOk : Bool) :
    Except RetroState (Bool × RetroState) :=
  if s.is_game_loaded then Except.error s
  else
    match result with
    | LoadGameResult.Success av =>
        let s1 := { s with av_info := av }
        if envOk then Except.ok (true, { s1 with is_game_loaded := true })
        else Except.error s1
    | LoadGameResult.Failed => Except.ok (false, s)

/-- `Retro::on_unload_game` (lines 457–463).  Returns the new adapter state
together with whether the core's `on_unload_game` hook was invoked.  When a
game is loaded the hook's returned `GameData` is discarded, and the state —
including `is_game_loaded` — is left untouched. -/
def Retro.on_unload_game (s : RetroState) : RetroState × Bool :=
  if s.is_game_loaded = false then (s, false)
  else (s, true)

/-- The four optional memory regions a `Core` may expose
(lines 192–203); each buffer is a list of bytes. -/
structure CoreMemory where
  save_memory : Option (List ℕ)
  rtc_memory : Option (List ℕ)
  system_memory : Option (List ℕ)
  video_memory : Option (List ℕ)
deriving DecidableEq, Repr

/-- `libretro_sys::MEMORY_SAVE_RAM` (libretro ABI constant). -/
def MEMORY_SAVE_RAM : ℕ := 0

/-- `libretro_sys::MEMORY_RTC` (libretro ABI constant). -/
def MEMORY_RTC : ℕ := 1

/-- `libretro_sys::MEMORY_SYSTEM_RAM` (libretro ABI constant). -/
def MEMORY_SYSTEM_RAM : ℕ := 2

/-- `libretro_sys::MEMORY_VIDEO_RAM` (libretro ABI constant). -/
def MEMORY_VIDEO_RAM : ℕ := 3

/-- `Retro::memory_data` (lines 469–477): dispatch on the memory-kind
selector; any other id hits `unreachable!` (`none`). -/
def memory_data (c : CoreMemory) (id : ℕ) : Option (Option (List ℕ)) :=
  if id = MEMORY_SAVE_RAM then some c.save_memory
  else if id = MEMORY_RTC then some c.rtc_memory
  else if id = MEMORY_SYSTEM_RAM then some c.system_memory
  else if id = MEMORY_VIDEO_RAM then some c.video_memory
  else none

/-- The pointer handed back by `on_get_memory_data`: either null or a
pointer to the exposed buffer. -/
inductive MemPtr where
  | null
  | buf (b : List ℕ)
deriving DecidableEq, Repr

/-- `Retro::on_get_memory_data` (lines 479–483): an absent region maps to a
null pointer; an invalid id propagates the `unreachable!` panic (`none`). -/
def on_get_memory_data (c : CoreMemory) (id : ℕ) : Option MemPtr :=
  (memory_data c id).map (fun r =>
    match r with
    | some b => MemPtr.buf b
    | none => MemPtr.null)

/-- `Retro::on_get_memory_size` (lines 485–489): an absent region maps to
size 0; an invalid id propagates the `unreachable!` panic (`none`). -/
def on_get_memory_size (c : CoreMemory) (id : ℕ) : Option ℕ :=
  (memory_data c id).map (fun r =>
    match r with
    | some b => b.length
    | none => 0)

/-- Spec-side definition (from the spec's words "pipe-joined list … preserves
insertion order"): the tail of a pipe-joined rendering, one `'|'` before each
element. -/
def pipeTail : List (List Char) → List Char
  | [] => []
  | e :: es => '|' :: (e ++ pipeTail es)

/-- Spec-side definition: the pipe-joined rendering of a list of extension
strings, to be compared with the stored list the code builds. -/
def pipeJoin : List (List Char) → List Char
  | [] => []
  | e :: es => e ++ pipeTail es

/-- The accumulator-shaped join performed by repeated
`supports_roms_with_extension` calls: append with a `'|'` separator unless
the accumulated bytes are still empty. -/
def pipeJoinFrom (acc : List Char) : List (List Char) → List Char
  | [] => acc
  | e :: es => pipeJoinFrom (if acc.isEmpty then e else acc ++ '|' :: e) es

/-- A `CoreInfo` as produced by `CoreInfo::new("n", "v")`. -/
def ciEmpty : CoreInfo :=
  { library_name := "n".data
    library_version := "v".data
    supported_romfile_extensions := []
    require_path_when_loading_roms := false
    allow_frontend_to_extract_archives := true }

/-- `ciEmpty` after `supports_roms_with_extension("zip")`: the
archive-extraction flag has been cleared. -/
def ciZip : CoreInfo :=
  { library_name := "n".data
    library_version := "v".data
    supported_romfile_extensions := "zip".data
    require_path_when_loading_roms := false
    allow_frontend_to_extract_archives := false }

/-- The AV configuration of the claims' run-frame scenario: 256×224 RGB565
video at 60 fps, 48000 Hz audio. -/
def avA : AudioVideoInfo :=
  (AudioVideoInfo.new.video 256 224 60 PixelFormat.RGB565).audio 48000

/-- Adapter state with a game loaded under `avA` and no carried surplus. -/
def stateA : RetroState :=
  { is_game_loaded := true
    av_info := avA
    total_audio_samples_uploaded := 0 }

/-- `stateA` with a carried surplus of 100 samples. -/
def stateA100 : RetroState :=
  { stateA with total_audio_samples_uploaded := 100 }

/-- Adapter state with a loaded game whose video is a single RGB565 pixel. -/
def state1x1 : RetroState :=
  { is_game_loaded := true
    av_info := (AudioVideoInfo.new.video 1 1 60 PixelFormat.RGB565).audio 48000
    total_audio_samples_uploaded := 0 }

/-- A core exposing none of the four memory regions (the trait defaults,
lines 192–203). -/
def coreNoMemory : CoreMemory :=
  { save_memory := none
    rtc_memory := none
    system_memory := none
    video_memory := none }

/-! ## Theorems -/

/-- Claim C5: calling load-game while a game is already loaded panics
(`assert_eq!` fires first, so the state is unchanged at the panic), and when
the core reports failure, `on_load_game` returns `false` and leaves the
loaded flag, the stored AV config and the carried audio surplus unchanged. -/
theorem load_game_error_atomicity :
    (∀ (s : RetroState) (r : LoadGameResult) (e : Bool),
        s.is_game_loaded = true → Retro.on_load_game s r e = Except.error s)
  ∧ (∀ (s : RetroState) (e : Bool),
        s.is_game_loaded = false →
        Retro.on_load_game s LoadGameResult.Failed e = Except.ok (false, s)) := by
  constructor
  · intro s r e h
    simp [Retro.on_load_game, h]
  · intro s e h
    simp [Retro.on_load_game, h]

/-- Witness for C5 at concrete states. -/
theorem load_game_error_atomicity_witness :
    Retro.on_load_game stateA LoadGameResult.Failed true = Except.error stateA
  ∧ Retro.on_load_game Retro.new LoadGameResult.Failed true = Except.ok (false, Retro.new) :=
  ⟨load_game_error_atomicity.1 stateA LoadGameResult.Failed true rfl,
   load_game_error_atomicity.2 Retro.new true rfl⟩

/-- Claim C2 (code bug): when no game is loaded, `on_unload_game` is a no-op
that does not invoke the core's hook; when a game is loaded it forwards to
the core and discards the result — but it does NOT clear `is_game_loaded`,
so the subsequent `on_load_game` hits `assert_eq!(self.is_game_loaded, false)`
and panics, contradicting the intended lifecycle (unload must return the
adapter to the no-game state so a later load is accepted). -/
theorem unload_game_leaves_loaded_flag_set :
    Retro.on_unload_game Retro.new = (Retro.new, false)
  ∧ Retro.on_load_game Retro.new (LoadGameResult.Success avA) true = Except.ok (true, stateA)
  ∧ Retro.on_unload_game stateA = (stateA, true)
  ∧ (Retro.on_unload_game stateA).1.is_game_loaded = true
  ∧ Retro.on_load_game (Retro.on_unload_game stateA).1 (LoadGameResult.Success avA) true
      = Except.error stateA := by
  refine ⟨rfl, rfl, rfl, rfl, rfl⟩

/-- Claim C9: for each of the four memory kinds, a core that does not expose
that region (accessor returns `None`) makes `on_get_memory_data` return a
null pointer and `on_get_memory_size` return zero. -/
theorem memory_absent_null_and_zero (c : CoreMemory) :
    (c.save_memory = none →
        on_get_memory_data c MEMORY_SAVE_RAM = some MemPtr.null
      ∧ on_get_memory_size c MEMORY_SAVE_RAM = some 0)
  ∧ (c.rtc_memory = none →
        on_get_memory_data c MEMORY_RTC = some MemPtr.null
      ∧ on_get_memory_size c MEMORY_RTC = some 0)
  ∧ (c.system_memory = none →
        on_get_memory_data c MEMORY_SYSTEM_RAM = some MemPtr.null
      ∧ on_get_memory_size c MEMORY_SYSTEM_RAM = some 0)
  ∧ (c.video_memory = none →
        on_get_memory_data c MEMORY_VIDEO_RAM = some MemPtr.null
      ∧ on_get_memory_size c MEMORY_VIDEO_RAM = some 0) := by
  refine ⟨?_, ?_, ?_, ?_⟩ <;> intro h <;>
    simp [on_get_memory_data, on_get_memory_size, memory_data,
          MEMORY_SAVE_RAM, MEMORY_RTC, MEMORY_SYSTEM_RAM, MEMORY_VIDEO_RAM, h]

/-- Witness for C9 on a core exposing no region at all. -/
theorem memory_absent_null_and_zero_witness :
    (on_get_memory_data coreNoMemory MEMORY_SAVE_RAM = some MemPtr.null
      ∧ on_get_memory_size coreNoMemory MEMORY_SAVE_RAM = some 0)
  ∧ (on_get_memory_data coreNoMemory MEMORY_RTC = some MemPtr.null
      ∧ on_get_memory_size coreNoMemory MEMORY_RTC = some 0)
  ∧ (on_get_memory_data coreNoMemory MEMORY_SYSTEM_RAM = some MemPtr.null
      ∧ on_get_memory_size coreNoMemory MEMORY_SYSTEM_RAM = some 0)
  ∧ (on_get_memory_data coreNoMemory MEMORY_VIDEO_RAM = some MemPtr.null
      ∧ on_get_memory_size coreNoMemory MEMORY_VIDEO_RAM = some 0) :=
  ⟨(memory_absent_null_and_zero coreNoMemory).1 rfl,
   (memory_absent_null_and_zero coreNoMemory).2.1 rfl,
   (memory_absent_null_and_zero coreNoMemory).2.2.1 rfl,
   (memory_absent_null_and_zero coreNoMemory).2.2.2 rfl⟩

/-- Claim C10: for any memory-kind selector that is none of the four defined
kinds, both `on_get_memory_data` and `on_get_memory_size` hit the
`unreachable!` branch and panic instead of returning null / zero. -/
theorem memory_invalid_id_panics (id : ℕ)
    (h1 : id ≠ MEMORY_SAVE_RAM) (h2 : id ≠ MEMORY_RTC)
    (h3 : id ≠ MEMORY_SYSTEM_RAM) (h4 : id ≠ MEMORY_VIDEO_RAM) :
    ∀ c : CoreMemory, on_get_memory_data c id = none ∧ on_get_memory_size c id = none := by
  intro c
  simp [on_get_memory_data, on_get_memory_size, memory_data, h1, h2, h3, h4]

/-- Witness for C10 at selector 4. -/
theorem memory_invalid_id_panics_witness :
    on_get_memory_data coreNoMemory 4 = none ∧ on_get_memory_size coreNoMemory 4 = none :=
  memory_invalid_id_panics 4 (by decide) (by decide) (by decide) (by decide) coreNoMemory

/-- Claim C8: `infer_game_region` returns the explicitly set region whenever
one was set, regardless of fps; otherwise NTSC when fps > 59.0 and PAL
otherwise — in particular NTSC at fps 60, PAL at fps 50, and PAL at fps 60
with an explicit PAL override. -/
theorem infer_region_spec :
    (∀ (a : AudioVideoInfo) (r : Region), a.game_region = some r → a.infer_game_region = r)
  ∧ (∀ a : AudioVideoInfo, a.game_region = none →
        (59 < a.frames_per_second → a.infer_game_region = Region.NTSC)
      ∧ (¬ 59 < a.frames_per_second → a.infer_game_region = Region.PAL))
  ∧ (AudioVideoInfo.new.video 256 224 60 PixelFormat.RGB565).infer_game_region = Region.NTSC
  ∧ (AudioVideoInfo.new.video 256 224 50 PixelFormat.RGB565).infer_game_region = Region.PAL
  ∧ ((AudioVideoInfo.new.video 256 224 60 PixelFormat.RGB565).region Region.PAL).infer_game_region
      = Region.PAL := by
  refine ⟨?_, ?_, ?_, ?_, ?_⟩
  · intro a r h
    simp [AudioVideoInfo.infer_game_region, h]
  · intro a h
    constructor <;> intro hf <;>
      simp [AudioVideoInfo.infer_game_region, h, hf]
  · simp [AudioVideoInfo.infer_game_region, AudioVideoInfo.video, AudioVideoInfo.new]
    norm_num
  · simp [AudioVideoInfo.infer_game_region, AudioVideoInfo.video, AudioVideoInfo.new]
    norm_num
  · simp [AudioVideoInfo.infer_game_region, AudioVideoInfo.region, AudioVideoInfo.video,
          AudioVideoInfo.new]

/-- Witness for C8: an explicit PAL override is returned as set. -/
theorem infer_region_spec_witness :
    (AudioVideoInfo.new.region Region.PAL).infer_game_region = Region.PAL :=
  infer_region_spec.1 (AudioVideoInfo.new.region Region.PAL) Region.PAL rfl

/-- Each builder call preserves "max dimensions ≥ base dimensions". -/
theorem applyAVStep_max_ge_base (a : AudioVideoInfo) (st : AVStep)
    (hw : a.width ≤ a.max_width) (hh : a.height ≤ a.max_height) :
    (applyAVStep a st).width ≤ (applyAVStep a st).max_width
  ∧ (applyAVStep a st).height ≤ (applyAVStep a st).max_height := by
  cases st <;>
    simp [applyAVStep, AudioVideoInfo.video, AudioVideoInfo.max_video_size,
          AudioVideoInfo.set_aspect_ratio, AudioVideoInfo.audio, AudioVideoInfo.region] <;>
    omega

/-- Claim C7: along every sequence of builder calls starting from
`AudioVideoInfo::new()`, the running maxima satisfy `max_width ≥ width` and
`max_height ≥ height` at every point of the chain. -/
theorem av_builder_max_ge_base (steps : List AVStep) :
    (applyAVSteps AudioVideoInfo.new steps).width
      ≤ (applyAVSteps AudioVideoInfo.new steps).max_width
  ∧ (applyAVSteps AudioVideoInfo.new steps).height
      ≤ (applyAVSteps AudioVideoInfo.new steps).max_height := by
  suffices h : ∀ (a : AudioVideoInfo), a.width ≤ a.max_width → a.height ≤ a.max_height →
      (applyAVSteps a steps).width ≤ (applyAVSteps a steps).max_width
    ∧ (applyAVSteps a steps).height ≤ (applyAVSteps a steps).max_height from
    h AudioVideoInfo.new (Nat.le_refl 0) (Nat.le_refl 0)
  induction steps with
  | nil => intro a hw hh; exact ⟨hw, hh⟩
  | cons st sts ih =>
    intro a hw hh
    have hstep := applyAVStep_max_ge_base a st hw hh
    exact ih (applyAVStep a st) hstep.1 hstep.2

/-- Archive-like extensions do not start with a dot, so the dot-strip leaves
them unchanged. -/
theorem stripLeadingDot_archive (e : List Char) (he : e ∈ archiveExtensions) :
    stripLeadingDot e = e := by
  simp [archiveExtensions] at he
  rcases he with rfl | rfl | rfl | rfl | rfl | rfl | rfl | rfl | rfl | rfl | rfl | rfl <;> rfl

/-- `supports_roms_with_extension` never resets a cleared archive flag. -/
theorem supports_flag_false (i : CoreInfo) (e : List Char) (j : CoreInfo)
    (hf : i.allow_frontend_to_extract_archives = false)
    (h : i.supports_roms_with_extension e = some j) :
    j.allow_frontend_to_extract_archives = false := by
  simp [CoreInfo.supports_roms_with_extension, cstringNew, hf] at h
  split at h <;>
    · obtain ⟨a, ⟨-, rfl⟩, hj⟩ := h
      rw [← hj]

/-- Claim C6: the archive-extraction flag starts `true`, is cleared the
moment any archive-like extension is added via
`supports_roms_with_extension`, and once cleared never becomes `true` again
for any subsequent sequence of calls. -/
theorem archive_flag_monotone :
    (∀ (n v : List Char) (i : CoreInfo), CoreInfo.new n v = some i →
        i.allow_frontend_to_extract_archives = true)
  ∧ (∀ (i : CoreInfo) (e : List Char) (j : CoreInfo),
        e ∈ archiveExtensions → i.supports_roms_with_extension e = some j →
        j.allow_frontend_to_extract_archives = false)
  ∧ (∀ (i : CoreInfo) (es : List (List Char)),
        i.allow_frontend_to_extract_archives = false →
        (i.addExts es).map (fun j => j.allow_frontend_to_extract_archives) ≠ some true) := by
  refine ⟨?_, ?_, ?_⟩
  · intro n v i h
    simp [CoreInfo.new, cstringNew] at h
    split at h
    · exact absurd h (by simp)
    · split at h
      · exact absurd h (by simp)
      · simp at h
        rw [← h]
  · intro i e j he h
    simp [CoreInfo.supports_roms_with_extension, cstringNew,
          stripLeadingDot_archive e he, he] at h
    split at h <;>
      · obtain ⟨a, ⟨-, rfl⟩, hj⟩ := h
        rw [← hj]
  · intro i es
    induction es generalizing i with
    | nil =>
      intro hf
      simp [CoreInfo.addExts, hf]
    | cons e es ih =>
      intro hf
      cases hse : i.supports_roms_with_extension e with
      | none => simp [CoreInfo.addExts, hse]
      | some j =>
        simp only [CoreInfo.addExts, hse, Option.bind_some]
        exact ih j (supports_flag_false i e j hf hse)

/-- Witness for C6: after adding "zip" the flag is cleared and adding a
non-archive extension afterwards cannot set it back. -/
theorem archive_flag_monotone_witness :
    (ciZip.addExts ["bin".data]).map
      (fun j => j.allow_frontend_to_extract_archives) ≠ some true :=
  archive_flag_monotone.2.2 ciZip ["bin".data] rfl

/-- A nonempty accumulator is extended by one pipe-separated tail element
per extension. -/
theorem pipeJoinFrom_of_cons (es : List (List Char)) :
    ∀ (c : Char) (cs : List Char),
      pipeJoinFrom (c :: cs) es = (c :: cs) ++ pipeTail es := by
  induction es with
  | nil =>
    intro c cs
    simp [pipeJoinFrom, pipeTail]
  | cons e es ih =>
    intro c cs
    simp only [pipeJoinFrom, List.isEmpty_cons, Bool.false_eq_true, if_false,
               List.cons_append]
    rw [ih]
    simp [pipeTail, List.append_assoc]

/-- Starting from an empty accumulator, the fold produces exactly the
pipe-joined rendering, provided the elements are nonempty. -/
theorem pipeJoinFrom_nil_of_ne (es : List (List Char)) (h : ∀ e ∈ es, e ≠ []) :
    pipeJoinFrom [] es = pipeJoin es := by
  cases es with
  | nil => rfl
  | cons e es =>
    cases e with
    | nil => exact absurd rfl (h [] (by simp))
    | cons c cs =>
      have h1 : pipeJoinFrom [] ((c :: cs) :: es) = pipeJoinFrom (c :: cs) es := rfl
      rw [h1, pipeJoinFrom_of_cons]
      rfl

/-- The stored extension bytes after a sequence of
`supports_roms_with_extension` calls are the accumulator fold of the
dot-stripped extensions, as long as no extension carries an interior NUL. -/
theorem addExts_stored (es : List (List Char)) :
    ∀ i : CoreInfo, Char.ofNat 0 ∉ i.supported_romfile_extensions →
    (∀ e ∈ es, Char.ofNat 0 ∉ stripLeadingDot e) →
    (i.addExts es).map (fun j => j.supported_romfile_extensions)
      = some (pipeJoinFrom i.supported_romfile_extensions (es.map stripLeadingDot)) := by
  induction es with
  | nil =>
    intro i _ _
    simp [CoreInfo.addExts, pipeJoinFrom]
  | cons e es ih =>
    intro i hi hes
    have hvec : Char.ofNat 0 ∉ (if i.supported_romfile_extensions.isEmpty
        then stripLeadingDot e
        else i.supported_romfile_extensions ++ '|' :: stripLeadingDot e) := by
      split
      · exact hes e (by simp)
      · intro hmem
        rcases List.mem_append.mp hmem with hmem | hmem
        · exact hi hmem
        · rcases List.mem_cons.mp hmem with heq | hmem
          · exact absurd heq (by decide)
          · exact hes e (by simp) hmem
    have hsupp : i.supports_roms_with_extension e = some
        { i with
          supported_romfile_extensions := (if i.supported_romfile_extensions.isEmpty
            then stripLeadingDot e
            else i.supported_romfile_extensions ++ '|' :: stripLeadingDot e)
          allow_frontend_to_extract_archives :=
            if stripLeadingDot e ∈ archiveExtensions then false
            else i.allow_frontend_to_extract_archives } := by
      simp only [CoreInfo.supports_roms_with_extension, cstringNew, hvec,
                 if_false, Option.map_some']
    simp only [CoreInfo.addExts, hsupp, Option.some_bind]
    rw [ih _ hvec (fun x hx => hes x (by simp [hx]))]
    rfl

/-- Claim C3 (amended): the stored pipe-joined extension list preserves
insertion order, strips a single leading dot from each extension, and keeps
duplicates; the bytes are stored verbatim (no lower-casing). -/
theorem extension_list_normalization (i : CoreInfo) (exts : List (List Char))
    (h0 : i.supported_romfile_extensions = [])
    (hne : ∀ e ∈ exts, stripLeadingDot e ≠ [])
    (hnul : ∀ e ∈ exts, Char.ofNat 0 ∉ stripLeadingDot e) :
    (i.addExts exts).map (fun j => j.supported_romfile_extensions)
      = some (pipeJoin (exts.map stripLeadingDot)) := by
  rw [addExts_stored exts i (by rw [h0]; simp) hnul, h0,
      pipeJoinFrom_nil_of_ne]
  intro x hx
  rcases List.mem_map.mp hx with ⟨e, he, rfl⟩
  exact hne e he

/-- Witness for C3: order kept, one dot stripped, duplicates kept, bytes
verbatim. -/
theorem extension_list_normalization_witness :
    (ciEmpty.addExts ["nes".data, ".GBA".data, "nes".data]).map
      (fun j => j.supported_romfile_extensions) = some "nes|GBA|nes".data := by
  have h := extension_list_normalization ciEmpty
    ["nes".data, ".GBA".data, "nes".data] rfl (by decide) (by decide)
  rw [h]
  decide

/-- Claim C3 counterexample: extension strings are NOT lower-cased — adding
"ZIP" stores the bytes "ZIP", not "zip". -/
theorem extension_not_lowercased_counterexample :
    (ciEmpty.supports_roms_with_extension "ZIP".data).map
      (fun j => j.supported_romfile_extensions) = some "ZIP".data
  ∧ "ZIP".data ≠ "zip".data := by
  constructor
  · decide
  · decide

/-- Claim C4 (amended): within one run-frame call a second
`upload_video_frame` is fatal; a first call succeeds exactly when the buffer
length, truncated to 32 bits as the source's `as u32` cast does, is at least
`width × height × bytesPerPixel` reduced mod 2³² — which, whenever the
length is below 2³² and the product does not overflow, is exactly
"length ≥ width × height × bytesPerPixel"; at the claim's geometry an exact
buffer succeeds and a one-byte-short buffer is fatal. -/
theorem video_upload_discipline (h : RuntimeHandle) (n : ℕ) :
    (h.upload_video_frame_already_called = true → h.upload_video_frame n = none)
  ∧ (∀ h' : RuntimeHandle, h.upload_video_frame n = some h' → h'.upload_video_frame n = none)
  ∧ (h.upload_video_frame_already_called = false →
      h.upload_video_frame n =
        (if h.video_width * h.video_height * h.video_frame_bytes_per_pixel % 2 ^ 32
            ≤ n % 2 ^ 32
         then some { h with upload_video_frame_already_called := true } else none))
  ∧ (h.upload_video_frame_already_called = false → n < 2 ^ 32 →
      h.video_width * h.video_height * h.video_frame_bytes_per_pixel < 2 ^ 32 →
      (h.upload_video_frame n ≠ none ↔
        h.video_width * h.video_height * h.video_frame_bytes_per_pixel ≤ n))
  ∧ (mkRuntimeHandle stateA).upload_video_frame (256 * 224 * 2) ≠ none
  ∧ (mkRuntimeHandle stateA).upload_video_frame (256 * 224 * 2 - 1) = none := by
  refine ⟨?_, ?_, ?_, ?_, by decide, by decide⟩
  · intro hc
    simp [RuntimeHandle.upload_video_frame, hc]
  · intro h' hsome
    unfold RuntimeHandle.upload_video_frame at hsome
    split at hsome
    · exact absurd hsome (by simp)
    · split at hsome
      · simp only [Option.some.injEq] at hsome
        simp [RuntimeHandle.upload_video_frame, ← hsome]
      · exact absurd hsome (by simp)
  · intro hc
    simp [RuntimeHandle.upload_video_frame, hc]
  · intro hc hn hp
    simp only [RuntimeHandle.upload_video_frame, hc, Bool.false_eq_true, if_false,
               Nat.mod_eq_of_lt hn, Nat.mod_eq_of_lt hp]
    split <;> simp [*]

/-- Witness for C4: an exactly-sized buffer on the 256×224 RGB565 geometry
is accepted (via the no-overflow characterization). -/
theorem video_upload_discipline_witness :
    (mkRuntimeHandle stateA).upload_video_frame 114688 ≠ none :=
  ((video_upload_discipline (mkRuntimeHandle stateA) 114688).2.2.2.1
      rfl (by decide) (by decide)).mpr (by decide)

/-- Claim C4 counterexample: the claim's "succeeds exactly when the buffer
is at least width × height × bytes-per-pixel bytes" fails for a 2³²-byte
buffer on a 1×1 RGB565 frame: the buffer is large enough (2 bytes needed),
but `data.len() as u32` truncates 2³² to 0 and the upload panics. -/
theorem video_upload_u32_truncation_counterexample :
    (mkRuntimeHandle state1x1).upload_video_frame_already_called = false
  ∧ (mkRuntimeHandle state1x1).video_width * (mkRuntimeHandle state1x1).video_height *
      (mkRuntimeHandle state1x1).video_frame_bytes_per_pixel ≤ 2 ^ 32
  ∧ (mkRuntimeHandle state1x1).upload_video_frame (2 ^ 32) = none := by
  refine ⟨rfl, by decide, by decide⟩

/-- The core uploading a sequence of even-length audio chunks accumulates
their total length in the handle. -/
theorem runEvents_map_audio (chunks : List ℕ) :
    ∀ h : RuntimeHandle, (∀ c ∈ chunks, c % 2 = 0) →
    runEvents h (chunks.map FrameEvent.audio) =
      some { h with audio_samples_uploaded := h.audio_samples_uploaded + chunks.sum } := by
  induction chunks with
  | nil =>
    intro h _
    simp [runEvents]
  | cons c cs ih =>
    intro h hev
    have hc : c % 2 = 0 := hev c (by simp)
    simp only [List.map_cons, runEvents, RuntimeHandle.upload_audio_frame, hc, if_pos,
               Option.some_bind]
    rw [ih _ (fun x hx => hev x (by simp [hx]))]
    simp [List.sum_cons, Nat.add_assoc]

/-- `Retro::on_run` on a frame whose core uploads the given even-length
audio chunks: succeed iff carried + uploaded reaches
`audio_sample_rate / frames_per_second * 2`, and carry the excess over the
truncated requirement. -/
theorem on_run_audio_chunks (s : RetroState) (chunks : List ℕ)
    (heven : ∀ c ∈ chunks, c % 2 = 0) :
    Retro.on_run s (chunks.map FrameEvent.audio) =
      (if s.av_info.audio_sample_rate / s.av_info.frames_per_second * 2
          ≤ ((s.total_audio_samples_uploaded + chunks.sum : ℕ) : ℚ) then
        some { s with total_audio_samples_uploaded :=
          s.total_audio_samples_uploaded + chunks.sum
            - (⌊s.av_info.audio_sample_rate / s.av_info.frames_per_second * 2⌋).toNat }
      else none) := by
  unfold Retro.on_run
  rw [runEvents_map_audio chunks (mkRuntimeHandle s) heven]
  simp [mkRuntimeHandle, Option.some_bind]

/-- The per-frame requirement at 48000 Hz / 60 fps is 1600 `i16` values. -/
theorem requiredA_eq :
    stateA.av_info.audio_sample_rate / stateA.av_info.frames_per_second * 2 = (1600 : ℚ) := by
  have h1 : stateA.av_info.audio_sample_rate = 48000 := rfl
  have h2 : stateA.av_info.frames_per_second = 60 := rfl
  rw [h1, h2]
  norm_num

/-- Claim C1 (amended): across each run-frame call the adapter sums the
`i16`-value counts passed to `upload_audio_frame`, adds the carried surplus,
requires the total to reach `audio_sample_rate / frames_per_second * 2`, and
carries the excess over the (truncated) requirement to the next frame.  The
counted unit is individual `i16` values, not stereo pairs: at 48000 Hz and
60 fps a core uploading a slice of 1600 `i16` values (800 stereo pairs) per
call satisfies the budget with zero carried surplus, uploading 800 values is
fatal, and uploading 1700 values carries a surplus of 100 that combined with
1500 on the next frame still satisfies the 1600-value requirement. -/
theorem audio_budget_accounting (s : RetroState) (chunks : List ℕ)
    (heven : ∀ c ∈ chunks, c % 2 = 0) :
    (Retro.on_run s (chunks.map FrameEvent.audio) =
      (if s.av_info.audio_sample_rate / s.av_info.frames_per_second * 2
          ≤ ((s.total_audio_samples_uploaded + chunks.sum : ℕ) : ℚ) then
        some { s with total_audio_samples_uploaded :=
          s.total_audio_samples_uploaded + chunks.sum
            - (⌊s.av_info.audio_sample_rate / s.av_info.frames_per_second * 2⌋).toNat }
      else none))
  ∧ (Retro.on_run stateA [FrameEvent.audio 1600]).map
      (fun t => t.total_audio_samples_uploaded) = some 0
  ∧ Retro.on_run stateA [FrameEvent.audio 800] = none
  ∧ (Retro.on_run stateA [FrameEvent.audio 1700]).map
      (fun t => t.total_audio_samples_uploaded) = some 100
  ∧ (Retro.on_run stateA100 [FrameEvent.audio 1500]).map
      (fun t => t.total_audio_samples_uploaded) = some 0 := by
  have hfl : (⌊(1600 : ℚ)⌋) = (1600 : ℤ) := by norm_num
  refine ⟨on_run_audio_chunks s chunks heven, ?_, ?_, ?_, ?_⟩
  · rw [show [FrameEvent.audio 1600] = List.map FrameEvent.audio [1600] from rfl,
        on_run_audio_chunks stateA [1600] (by decide), requiredA_eq,
        show stateA.total_audio_samples_uploaded = 0 from rfl,
        if_pos (by push_cast; norm_num), hfl]
    decide
  · rw [show [FrameEvent.audio 800] = List.map FrameEvent.audio [800] from rfl,
        on_run_audio_chunks stateA [800] (by decide), requiredA_eq,
        show stateA.total_audio_samples_uploaded = 0 from rfl,
        if_neg (by push_cast; norm_num)]
  · rw [show [FrameEvent.audio 1700] = List.map FrameEvent.audio [1700] from rfl,
        on_run_audio_chunks stateA [1700] (by decide), requiredA_eq,
        show stateA.total_audio_samples_uploaded = 0 from rfl,
        if_pos (by push_cast; norm_num), hfl]
    decide
  · rw [show [FrameEvent.audio 1500] = List.map FrameEvent.audio [1500] from rfl,
        on_run_audio_chunks stateA100 [1500] (by decide),
        show stateA100.av_info = stateA.av_info from rfl, requiredA_eq,
        show stateA100.total_audio_samples_uploaded = 100 from rfl,
        if_pos (by push_cast; norm_num), hfl]
    decide

/-- Witness for C1 at the exact-budget input. -/
theorem audio_budget_accounting_witness :
    (Retro.on_run stateA [FrameEvent.audio 1600]).map
      (fun t => t.total_audio_samples_uploaded) = some 0 :=
  (audio_budget_accounting stateA [1600] (by decide)).2.1

/-- Claim C1 counterexample: the claim's concrete reading — "uploading 1600
stereo samples (3200 int16 values) per call satisfies the budget with zero
carried surplus" — is false: a core passing 3200 `i16` values to
`upload_audio_frame` at 48000 Hz / 60 fps ends the frame with a carried
surplus of 1600, not 0, because the code counts individual `i16` values
(`data.len()`) and requires only 1600 of them per frame. -/
theorem audio_budget_stereo_units_counterexample :
    (Retro.on_run stateA [FrameEvent.audio 3200]).map
      (fun t => t.total_audio_samples_uploaded) = some 1600
  ∧ (1600 : ℕ) ≠ 0 := by
  constructor
  · rw [show [FrameEvent.audio 3200] = List.map FrameEvent.audio [3200] from rfl,
        on_run_audio_chunks stateA [3200] (by decide), requiredA_eq,
        show stateA.total_audio_samples_uploaded = 0 from rfl,
        if_pos (by push_cast; norm_num),
        show (⌊(1600 : ℚ)⌋) = (1600 : ℤ) from by norm_num]
    decide
  · decide

end LibretroBackend
